import Mathlib

/-!
Verification of the PyHIST tiling orchestrator (`src/tools/tiling_pyhist.py`).

The script is a thin orchestration layer around external effects (the file
system, `docker pull`, one `docker run` per image, ZIP extraction and
packaging).  We embed it shallowly: every external effect is resolved by an
`Env` oracle describing the outside world (whether the input ZIP is
well-formed, which docker invocations succeed, which files a directory
contains, whether the output archive can be written), and every function
additionally returns the list of observable `Event`s it performs (process
spawns, temp-directory creation/removal, log lines), in order.  Paths are
modelled structurally: a file path is its parent-directory component list
plus `pathlib`'s `stem` and `suffix`; a directory is a component list.
-/

deriving instance DecidableEq for Except

namespace TilingPyhist

/-- A file path, as `pathlib.Path` exposes it: parent directory components,
`stem` (base name without extension) and `ext` (the `suffix`, dot included). -/
structure FilePath where
  dirs : List String
  stem : String
  ext  : String
deriving DecidableEq, Repr

/-- A directory path is its list of components. -/
abbrev Dir := List String

/-- Python `str.lower`, restricted to `Char.toLower` per character. -/
def strLower (s : String) : String :=
  String.mk (s.data.map Char.toLower)

/-- Source line 18: `VALID_EXTENSIONS = {'.png', '.jpg', '.jpeg', '.tif', '.tiff', '.svs', '.dat'}`. -/
def VALID_EXTENSIONS : List String :=
  [".png", ".jpg", ".jpeg", ".tif", ".tiff", ".svs", ".dat"]

/-- The image-classification test of `process_files` line 92:
`input_path.suffix.lower() in VALID_EXTENSIONS` (also applied to archive
members, line 96). -/
def is_image_ext (p : FilePath) : Bool :=
  VALID_EXTENSIONS.contains (strLower p.ext)

/-- The archive-classification test of `process_files` line 93:
`input_path.suffix.lower() == ".zip"`. -/
def is_zip_ext (p : FilePath) : Bool :=
  strLower p.ext == ".zip"

/-- Oracle for the outside world a run interacts with. -/
structure Env where
  /-- Whether the input archive is a well-formed ZIP. -/
  zipValid : Bool
  /-- `zip_ref.namelist()`: member paths, relative to the archive root. -/
  zipNames : List FilePath
  /-- The fresh directory `tempfile.mkdtemp(prefix="zip_extract_")` returns. -/
  tempDir  : Dir
  /-- Whether `docker pull mmunozag/pyhist` exits with status 0. -/
  pullOk   : Bool
  /-- Whether the `docker run` job for a given image exits with status 0. -/
  dockerOk : FilePath → Bool
  /-- File names present in a directory when it is globbed. -/
  files    : Dir → List String
  /-- Whether the output ZIP can be created and written. -/
  packOk   : Bool

/-- Observable events a run performs, in order. -/
inductive Event where
  /-- `tempfile.mkdtemp` created this directory (line 22). -/
  | tempDirCreated (d : Dir)
  /-- `shutil.rmtree` removed this directory (line 139). -/
  | tempDirRemoved (d : Dir)
  /-- The external process `docker pull mmunozag/pyhist` was spawned (line 35). -/
  | spawnPull
  /-- An external `docker run` process was spawned for this image (line 74). -/
  | spawnDocker (img : FilePath)
  /-- An info-level log line. -/
  | logInfo
  /-- `logging.warning("No PNG tiles found in %s", tile_dir)`, line 117. -/
  | warnNoTiles (d : Dir)
  /-- `logging.error("Processing failed for %s: %s", img_path, e)`, line 119. -/
  | errJobFailed (img : FilePath)
deriving DecidableEq, Repr

/-- The exceptions the script can raise. -/
inductive Err where
  /-- `RuntimeError("Invalid ZIP file.")`, line 30. -/
  | invalidZip
  /-- `RuntimeError` from a failed `docker pull`, line 44. -/
  | pullFailed
  /-- `RuntimeError("PyHIST docker processing failed: ...")`, line 78. -/
  | toolExec (img : FilePath)
  /-- `ValueError(f"Unsupported input file type: ...")`, line 98. -/
  | unsupportedInput (ext : String)
  /-- Failure to create/write the output ZIP in `create_output_zip`. -/
  | packFailed
deriving DecidableEq, Repr

/-- `extract_zip` (lines 20-30): `mkdtemp` first, then open the archive;
on success return the temp dir and the member list resolved under it, on
`BadZipFile` raise `RuntimeError` — without removing the directory already
created. -/
def extract_zip (env : Env) : Except Err (Dir × List FilePath) × List Event :=
  let temp_dir := env.tempDir
  if env.zipValid then
    (Except.ok (temp_dir,
        env.zipNames.map (fun f =>
          { dirs := temp_dir ++ f.dirs, stem := f.stem, ext := f.ext })),
     [Event.tempDirCreated temp_dir, Event.logInfo])
  else
    (Except.error Err.invalidZip, [Event.tempDirCreated temp_dir])

/-- `pull_docker_image` (lines 32-45): spawn `docker pull`; raise on
non-zero exit. -/
def pull_docker_image (env : Env) : Except Err Unit × List Event :=
  if env.pullOk then
    (Except.ok (), [Event.spawnPull, Event.logInfo])
  else
    (Except.error Err.pullFailed, [Event.spawnPull])

/-- The tile directory `run_pyhist_docker` computes (lines 80-82):
`parent / "output" / stem / (stem + "_tiles")`. -/
def expected_tile_folder (img : FilePath) : Dir :=
  img.dirs ++ ["output", img.stem, img.stem ++ "_tiles"]

/-- `run_pyhist_docker` (lines 46-82): spawn the container for the image;
raise on non-zero exit; otherwise return the expected tile folder, computed
purely from the image path, with no check that any tile exists in it. -/
def run_pyhist_docker (env : Env) (img : FilePath) : Except Err Dir × List Event :=
  if env.dockerOk img then
    (Except.ok (expected_tile_folder img), [Event.spawnDocker img, Event.logInfo])
  else
    (Except.error (Err.toolExec img), [Event.spawnDocker img])

/-- Whether a file name matches the glob pattern `*.png`: it ends in
`.png`. -/
def matches_png (f : String) : Bool :=
  ".png".data.isSuffixOf f.data

/-- `tile_dir.glob("*.png")` (line 113): the directory entries ending in
`.png`. -/
def png_files (env : Env) (d : Dir) : List String :=
  (env.files d).filter matches_png

/-- Python dict assignment `m[k] = v`: replace in place when the key is
present (insertion position kept), otherwise append. -/
def setKey (m : List (String × Dir)) (k : String) (v : Dir) : List (String × Dir) :=
  if m.any (fun p => p.1 == k) then
    m.map (fun p => if p.1 == k then (k, v) else p)
  else
    m ++ [(k, v)]

/-- One completed future's handling in `process_files` (lines 110-121):
on success, insert the stem when the tile glob is non-empty, else log a
warning; on failure, log an error and continue. -/
def step_job (env : Env) (acc : List (String × Dir) × List Event) (img : FilePath) :
    List (String × Dir) × List Event :=
  match run_pyhist_docker env img with
  | (Except.ok tile_dir, ev) =>
    if (png_files env tile_dir).isEmpty then
      (acc.1, acc.2 ++ ev ++ [Event.warnNoTiles tile_dir])
    else
      (setKey acc.1 img.stem tile_dir, acc.2 ++ ev)
  | (Except.error _, ev) =>
    (acc.1, acc.2 ++ ev ++ [Event.errJobFailed img])

/-- The fan-in loop of `process_files` (lines 109-121): handle every job's
completion, accumulating the dict `image_tile_map` and the log. -/
def dispatch_all (env : Env) (acc : List (String × Dir) × List Event) :
    List FilePath → List (String × Dir) × List Event
  | [] => acc
  | img :: rest => dispatch_all env (step_job env acc img) rest

/-- `process_files` (lines 84-123): classify the input, collect image paths
(single image, or recognized members of an extracted archive, anything else
raises `ValueError`), run all jobs, return the result map and the optional
temp dir. -/
def process_files (env : Env) (input : FilePath) :
    Except Err (List (String × Dir) × Option Dir) × List Event :=
  if is_image_ext input then
    let d := dispatch_all env ([], []) [input]
    (Except.ok (d.1, none), d.2)
  else if is_zip_ext input then
    match extract_zip env with
    | (Except.ok (temp_dir, file_list), ev) =>
      let images := file_list.filter is_image_ext
      let d := dispatch_all env ([], []) images
      (Except.ok (d.1, some temp_dir), ev ++ d.2)
    | (Except.error e, ev) => (Except.error e, ev)
  else
    (Except.error (Err.unsupportedInput input.ext), [])

/-- The archive member names `create_output_zip` writes (lines 125-132):
for each map entry, every `.png` of its tile dir under the arcname
`f"{image_name}/{file.name}"`. -/
def zip_members (env : Env) (m : List (String × Dir)) : List String :=
  m.flatMap (fun p => (png_files env p.2).map (fun f => p.1 ++ "/" ++ f))

/-- `create_output_zip` (lines 125-132): open the output ZIP in mode `'w'`
(truncating) and write all tile entries; fails if the archive cannot be
written. -/
def create_output_zip (env : Env) (m : List (String × Dir)) :
    Except Err (List String) × List Event :=
  if env.packOk then
    (Except.ok (zip_members env m), [Event.logInfo])
  else
    (Except.error Err.packFailed, [])

/-- `main` (lines 134-141): pull the image, process the input, package the
results, and only then — with no try/finally — remove the temp dir if one
was created. -/
def main_run (env : Env) (input : FilePath) : Except Err (List String) × List Event :=
  match pull_docker_image env with
  | (Except.error e, ev0) => (Except.error e, ev0)
  | (Except.ok _, ev0) =>
    match process_files env input with
    | (Except.error e, ev1) => (Except.error e, ev0 ++ ev1)
    | (Except.ok (m, temp_dir), ev1) =>
      match create_output_zip env m with
      | (Except.error e, ev2) => (Except.error e, ev0 ++ ev1 ++ ev2)
      | (Except.ok members, ev2) =>
        match temp_dir with
        | some td =>
          (Except.ok members, ev0 ++ ev1 ++ ev2 ++ [Event.tempDirRemoved td, Event.logInfo])
        | none =>
          (Except.ok members, ev0 ++ ev1 ++ ev2 ++ [Event.logInfo])

/-- The file system's view of written ZIP archives: path to member list. -/
abbrev ZipStore := FilePath → Option (List String)

/-- A whole run, as a transformer of the archive store: on success the
output path's archive is replaced (mode `'w'`) by the run's members; on a
raised error nothing was written. -/
def run_with_store (env : Env) (input output : FilePath) (s : ZipStore) : ZipStore :=
  match (main_run env input).1 with
  | Except.ok members => fun p => if p = output then some members else s p
  | Except.error _ => s

/-- `max_workers=25` (line 103). -/
def max_workers : Nat := 25

/-- A state of the `ProcessPoolExecutor`: how many submitted jobs are not
yet started, how many are running in worker processes, how many finished. -/
structure ExecState where
  pending : Nat
  running : Nat
  done    : Nat
deriving DecidableEq, Repr

/-- The pool's scheduling steps: a pending job may start only while fewer
than `max_workers` jobs are running; a running job may finish. -/
inductive ExecStep : ExecState → ExecState → Prop where
  | start (s : ExecState) (hp : 0 < s.pending) (hr : s.running < max_workers) :
      ExecStep s ⟨s.pending - 1, s.running + 1, s.done⟩
  | finish (s : ExecState) (hr : 0 < s.running) :
      ExecStep s ⟨s.pending, s.running - 1, s.done + 1⟩

/-- States reachable from submitting `k` jobs to an idle pool. -/
inductive ExecReach (k : Nat) : ExecState → Prop where
  | init : ExecReach k ⟨k, 0, 0⟩
  | step {s t : ExecState} : ExecReach k s → ExecStep s t → ExecReach k t

/-- Whether a job succeeds end to end: its `docker run` exits 0 and the
expected tile folder's `.png` glob is non-empty — exactly the condition
under which `process_files` records the image in the result map. -/
def job_ok (env : Env) (img : FilePath) : Bool :=
  env.dockerOk img && !(png_files env (expected_tile_folder img)).isEmpty

/-- The events one job's handling contributes to the log, by outcome. -/
def job_events (env : Env) (img : FilePath) : List Event :=
  if env.dockerOk img then
    if (png_files env (expected_tile_folder img)).isEmpty then
      [Event.spawnDocker img, Event.logInfo, Event.warnNoTiles (expected_tile_folder img)]
    else
      [Event.spawnDocker img, Event.logInfo]
  else
    [Event.spawnDocker img, Event.errJobFailed img]

/-- One job's effect on the result map: insert the stem exactly when the
job succeeded. -/
def apply_job (env : Env) (m : List (String × Dir)) (img : FilePath) : List (String × Dir) :=
  if job_ok env img then setKey m img.stem (expected_tile_folder img) else m

/-- The image jobs an archive input yields: the extracted member paths,
filtered to recognized image extensions (lines 95-97). -/
def archive_images (env : Env) : List FilePath :=
  (env.zipNames.map (fun f =>
    { dirs := env.tempDir ++ f.dirs, stem := f.stem, ext := f.ext })).filter is_image_ext

/-- The result map the dispatch loop builds for an archive input. -/
def result_map (env : Env) : List (String × Dir) :=
  (dispatch_all env ([], []) (archive_images env)).1

/-- Test fixture: a world with an archive holding `a.svs` (succeeds, two
tiles), `b.SVS` (its `docker run` fails), `c.tif` (succeeds, zero tiles)
and `notes.txt` (not an image); pull and packaging succeed. -/
def envHappy : Env :=
  { zipValid := true
    zipNames := [⟨[], "a", ".svs"⟩, ⟨[], "b", ".SVS"⟩, ⟨[], "c", ".tif"⟩, ⟨[], "notes", ".txt"⟩]
    tempDir := ["tmp", "zip_extract_0"]
    pullOk := true
    dockerOk := fun img => img.stem != "b"
    files := fun d =>
      if d = ["tmp", "zip_extract_0", "output", "a", "a_tiles"] then ["t1.png", "t2.png"] else []
    packOk := true }

/-- Test fixture: like `envHappy` but the input archive is malformed. -/
def envBadZip : Env := { envHappy with zipValid := false }

/-- Test fixture: like `envHappy` but the output archive cannot be written. -/
def envPackFail : Env := { envHappy with packOk := false }

/-- Test fixture: like `envHappy` but every `docker run` fails. -/
def envAllFail : Env := { envHappy with dockerOk := fun _ => false }

/-- Test fixture: an archive input path `in/slides.zip`. -/
def inputZip : FilePath := ⟨["in"], "slides", ".zip"⟩

theorem step_job_fst (env : Env) (acc : List (String × Dir) × List Event) (img : FilePath) :
    (step_job env acc img).1 = apply_job env acc.1 img := by
  unfold step_job apply_job run_pyhist_docker job_ok
  cases h : env.dockerOk img <;>
    cases h2 : (png_files env (expected_tile_folder img)).isEmpty <;> simp [h, h2]

theorem step_job_snd (env : Env) (acc : List (String × Dir) × List Event) (img : FilePath) :
    (step_job env acc img).2 = acc.2 ++ job_events env img := by
  unfold step_job job_events run_pyhist_docker
  cases h : env.dockerOk img <;>
    cases h2 : (png_files env (expected_tile_folder img)).isEmpty <;> simp [h, h2]

theorem dispatch_all_fst (env : Env) (images : List FilePath) :
    ∀ acc, (dispatch_all env acc images).1 = images.foldl (apply_job env) acc.1 := by
  induction images with
  | nil => intro acc; rfl
  | cons img rest ih =>
    intro acc
    rw [List.foldl_cons, ← step_job_fst]
    exact ih (step_job env acc img)

theorem dispatch_all_snd (env : Env) (images : List FilePath) :
    ∀ acc, (dispatch_all env acc images).2 = acc.2 ++ images.flatMap (job_events env) := by
  induction images with
  | nil => intro acc; simp [dispatch_all]
  | cons img rest ih =>
    intro acc
    rw [List.flatMap_cons, show dispatch_all env acc (img :: rest) =
          dispatch_all env (step_job env acc img) rest from rfl,
        ih (step_job env acc img), step_job_snd, List.append_assoc]

theorem keys_setKey (m : List (String × Dir)) (k : String) (v : Dir) :
    (setKey m k v).map Prod.fst =
      if m.any (fun p => p.1 == k) then m.map Prod.fst else m.map Prod.fst ++ [k] := by
  unfold setKey
  by_cases h : m.any (fun p => p.1 == k) = true
  · rw [if_pos h, if_pos h, List.map_map]
    apply List.map_congr_left
    intro p _
    by_cases hpk : p.1 = k <;> simp [Function.comp, hpk]
  · rw [if_neg h, if_neg h, List.map_append]
    rfl

theorem mem_keys_setKey (m : List (String × Dir)) (k : String) (v : Dir) (a : String) :
    a ∈ (setKey m k v).map Prod.fst ↔ a ∈ m.map Prod.fst ∨ a = k := by
  rw [keys_setKey]
  by_cases h : m.any (fun p => p.1 == k) = true
  · rw [if_pos h]
    have hk : k ∈ m.map Prod.fst := by
      obtain ⟨p, hp, he⟩ := List.any_eq_true.mp h
      exact List.mem_map.mpr ⟨p, hp, by simpa using he⟩
    constructor
    · exact Or.inl
    · rintro (h1 | rfl)
      · exact h1
      · exact hk
  · rw [if_neg h]; simp

theorem mem_setKey (m : List (String × Dir)) (k : String) (v : Dir) (x : String × Dir) :
    x ∈ setKey m k v → x ∈ m ∨ x = (k, v) := by
  unfold setKey
  by_cases h : m.any (fun p => p.1 == k) = true
  · rw [if_pos h]
    intro hx
    obtain ⟨p, hp, he⟩ := List.mem_map.mp hx
    by_cases hpk : p.1 = k
    · right; rw [← he]; simp [hpk]
    · left; rw [← he]; simpa [hpk] using hp
  · rw [if_neg h]
    intro hx
    rcases List.mem_append.mp hx with h1 | h1
    · exact Or.inl h1
    · right; simpa using h1

theorem mem_keys_foldl (env : Env) (images : List FilePath) (a : String) :
    ∀ m0 : List (String × Dir),
      a ∈ (images.foldl (apply_job env) m0).map Prod.fst ↔
        a ∈ m0.map Prod.fst ∨ ∃ img ∈ images, img.stem = a ∧ job_ok env img = true := by
  induction images with
  | nil => intro m0; simp
  | cons img rest ih =>
    intro m0
    rw [List.foldl_cons, ih]
    unfold apply_job
    by_cases h : job_ok env img = true
    · rw [if_pos h, mem_keys_setKey]
      constructor
      · rintro ((h1 | rfl) | ⟨im, him, h2, h3⟩)
        · exact Or.inl h1
        · exact Or.inr ⟨img, List.mem_cons_self img rest, rfl, h⟩
        · exact Or.inr ⟨im, List.mem_cons_of_mem _ him, h2, h3⟩
      · rintro (h1 | ⟨im, him, h2, h3⟩)
        · exact Or.inl (Or.inl h1)
        · rcases List.mem_cons.mp him with rfl | him2
          · exact Or.inl (Or.inr h2.symm)
          · exact Or.inr ⟨im, him2, h2, h3⟩
    · rw [if_neg h]
      have hh : job_ok env img = false := by simpa using h
      constructor
      · rintro (h1 | ⟨im, him, h2, h3⟩)
        · exact Or.inl h1
        · exact Or.inr ⟨im, List.mem_cons_of_mem _ him, h2, h3⟩
      · rintro (h1 | ⟨im, him, h2, h3⟩)
        · exact Or.inl h1
        · rcases List.mem_cons.mp him with rfl | him2
          · simp [hh] at h3
          · exact Or.inr ⟨im, him2, h2, h3⟩

theorem mem_foldl_pairs (env : Env) (images : List FilePath) (x : String × Dir) :
    ∀ m0, x ∈ images.foldl (apply_job env) m0 →
      x ∈ m0 ∨ ∃ img ∈ images,
        x = (img.stem, expected_tile_folder img) ∧ job_ok env img = true := by
  induction images with
  | nil => intro m0 h; exact Or.inl h
  | cons img rest ih =>
    intro m0 h
    rw [List.foldl_cons] at h
    rcases ih _ h with h1 | ⟨im, him, h2, h3⟩
    · unfold apply_job at h1
      by_cases hj : job_ok env img = true
      · rw [if_pos hj] at h1
        rcases mem_setKey _ _ _ _ h1 with h2 | h2
        · exact Or.inl h2
        · exact Or.inr ⟨img, List.mem_cons_self img rest, h2, hj⟩
      · rw [if_neg hj] at h1; exact Or.inl h1
    · exact Or.inr ⟨im, List.mem_cons_of_mem _ him, h2, h3⟩

theorem spawnDocker_mem_job_events (env : Env) (img : FilePath) :
    Event.spawnDocker img ∈ job_events env img := by
  unfold job_events
  by_cases h : env.dockerOk img = true <;>
    by_cases h2 : (png_files env (expected_tile_folder img)).isEmpty = true <;>
      simp [h, h2]

theorem errJobFailed_job_events (env : Env) (img p : FilePath) :
    Event.errJobFailed p ∈ job_events env img → img = p ∧ env.dockerOk img = false := by
  unfold job_events
  cases h : env.dockerOk img with
  | true =>
    by_cases h2 : (png_files env (expected_tile_folder img)).isEmpty = true <;> simp [h2]
  | false =>
    intro h3
    simp at h3
    exact ⟨h3.symm, rfl⟩

theorem warnNoTiles_mem_job_events (env : Env) (img : FilePath)
    (h : env.dockerOk img = true) (h2 : png_files env (expected_tile_folder img) = []) :
    Event.warnNoTiles (expected_tile_folder img) ∈ job_events env img := by
  unfold job_events
  simp [h, h2]

theorem process_files_zip (env : Env) (input : FilePath)
    (h1 : is_image_ext input = false) (h2 : is_zip_ext input = true)
    (h3 : env.zipValid = true) :
    process_files env input =
      (Except.ok ((dispatch_all env ([], []) (archive_images env)).1, some env.tempDir),
       [Event.tempDirCreated env.tempDir, Event.logInfo] ++
         (dispatch_all env ([], []) (archive_images env)).2) := by
  unfold process_files extract_zip archive_images
  simp [h1, h2, h3]

/-- C1: failure isolation in dispatch.  For an archive input in a world where
the pull, the extraction and the packaging succeed: every recognized image's
job is dispatched (a `docker run` is spawned for each, so one job's failure
never prevents the others from running); the result map holds exactly the
stems of the jobs that succeeded (tool exited 0 and the tile glob was
non-empty); and the output archive's entries are exactly the successful
images' tiles, each under its own `stem/` arcname. -/
theorem c1_failure_isolation (env : Env) (input : FilePath)
    (h1 : is_image_ext input = false) (h2 : is_zip_ext input = true)
    (h3 : env.zipValid = true) (h4 : env.pullOk = true) (h5 : env.packOk = true) :
    (∀ img ∈ archive_images env, Event.spawnDocker img ∈ (main_run env input).2) ∧
    (∀ k : String, k ∈ (result_map env).map Prod.fst ↔
        ∃ img ∈ archive_images env, img.stem = k ∧ job_ok env img = true) ∧
    (main_run env input).1 = Except.ok (zip_members env (result_map env)) ∧
    (∀ a ∈ zip_members env (result_map env),
        ∃ img ∈ archive_images env, job_ok env img = true ∧
          ∃ f : String, a = img.stem ++ "/" ++ f) := by
  refine ⟨?_, ?_, ?_, ?_⟩
  · intro img him
    have hd : Event.spawnDocker img ∈ (dispatch_all env ([], []) (archive_images env)).2 := by
      rw [dispatch_all_snd]
      exact List.mem_flatMap.mpr ⟨img, him, spawnDocker_mem_job_events env img⟩
    unfold main_run pull_docker_image create_output_zip
    rw [process_files_zip env input h1 h2 h3]
    simp [h4, h5, hd]
  · intro k
    unfold result_map
    rw [dispatch_all_fst]
    simpa using mem_keys_foldl env (archive_images env) k []
  · unfold main_run pull_docker_image create_output_zip
    rw [process_files_zip env input h1 h2 h3]
    simp [h4, h5, result_map]
  · intro a ha
    obtain ⟨p, hp, ha2⟩ := List.mem_flatMap.mp ha
    obtain ⟨f, hf, rfl⟩ := List.mem_map.mp ha2
    have hp2 : p ∈ List.foldl (apply_job env) [] (archive_images env) := by
      have := hp
      unfold result_map at this
      rwa [dispatch_all_fst] at this
    rcases mem_foldl_pairs env (archive_images env) p [] hp2 with h0 | ⟨img, him, rfl, hj⟩
    · cases h0
    · exact ⟨img, him, hj, f, rfl⟩

/-- C1 witness: in the fixture world (archive with `a.svs` succeeding,
`b.SVS` failing, `c.tif` yielding no tiles, `notes.txt` ignored) the
theorem's hypotheses hold and its conclusion follows at that input. -/
theorem c1_failure_isolation_witness :
    (is_image_ext inputZip = false ∧ is_zip_ext inputZip = true ∧
      envHappy.zipValid = true ∧ envHappy.pullOk = true ∧ envHappy.packOk = true) ∧
    ((∀ img ∈ archive_images envHappy, Event.spawnDocker img ∈ (main_run envHappy inputZip).2) ∧
    (∀ k : String, k ∈ (result_map envHappy).map Prod.fst ↔
        ∃ img ∈ archive_images envHappy, img.stem = k ∧ job_ok envHappy img = true) ∧
    (main_run envHappy inputZip).1 = Except.ok (zip_members envHappy (result_map envHappy)) ∧
    (∀ a ∈ zip_members envHappy (result_map envHappy),
        ∃ img ∈ archive_images envHappy, job_ok envHappy img = true ∧
          ∃ f : String, a = img.stem ++ "/" ++ f)) :=
  ⟨⟨by decide, by decide, by decide, by decide, by decide⟩,
    c1_failure_isolation envHappy inputZip (by decide) (by decide) (by decide)
      (by decide) (by decide)⟩

/-- C2 counterexample: on the unsupported input `in/bad.txt` the run does
raise the unsupported-input error, yet the external `docker pull` process
was spawned before that rejection — `main` pulls the tool image before
classifying the input, so the claim that no external process of any kind is
spawned before the rejection is false. -/
theorem c2_pull_before_reject_cex :
    (main_run envHappy ⟨["in"], "bad", ".txt"⟩).1 =
        Except.error (Err.unsupportedInput ".txt") ∧
    Event.spawnPull ∈ (main_run envHappy ⟨["in"], "bad", ".txt"⟩).2 := by decide

/-- C2 amended: for every input whose extension is neither a recognized
image extension nor `.zip` (and with the tool image pull succeeding), the
run raises the unsupported-input error before any tool job is dispatched —
no `docker run` is ever spawned — but the `docker pull` subprocess has
already run before the rejection. -/
theorem c2_reject_amended (env : Env) (input : FilePath)
    (h1 : is_image_ext input = false) (h2 : is_zip_ext input = false)
    (h3 : env.pullOk = true) :
    (main_run env input).1 = Except.error (Err.unsupportedInput input.ext) ∧
    (∀ img, Event.spawnDocker img ∉ (main_run env input).2) ∧
    Event.spawnPull ∈ (main_run env input).2 := by
  unfold main_run pull_docker_image process_files
  simp [h1, h2, h3]

/-- C2 amended witness: the amended theorem applied to the concrete
unsupported input `in/bad.txt`. -/
theorem c2_reject_amended_witness :
    (is_image_ext ⟨["in"], "bad", ".txt"⟩ = false ∧
      is_zip_ext ⟨["in"], "bad", ".txt"⟩ = false ∧ envHappy.pullOk = true) ∧
    ((main_run envHappy ⟨["in"], "bad", ".txt"⟩).1 =
        Except.error (Err.unsupportedInput ".txt") ∧
    (∀ img, Event.spawnDocker img ∉ (main_run envHappy ⟨["in"], "bad", ".txt"⟩).2) ∧
    Event.spawnPull ∈ (main_run envHappy ⟨["in"], "bad", ".txt"⟩).2) :=
  ⟨⟨by decide, by decide, by decide⟩,
    c2_reject_amended envHappy ⟨["in"], "bad", ".txt"⟩ (by decide) (by decide) (by decide)⟩

/-- C3 counterexample: when packaging fails (the output archive cannot be
written), the run aborts and the temporary extraction workspace that was
created is never removed — `main` has no try/finally, so deletion is not
unconditional with respect to downstream failures. -/
theorem c3_cleanup_cex :
    (main_run envPackFail inputZip).1 = Except.error Err.packFailed ∧
    Event.tempDirCreated envPackFail.tempDir ∈ (main_run envPackFail inputZip).2 ∧
    Event.tempDirRemoved envPackFail.tempDir ∉ (main_run envPackFail inputZip).2 := by
  decide

/-- C3 amended: for an archive input, the temporary workspace is removed at
the end of every run in which extraction and packaging succeed — job-level
failures included, since `dockerOk` is arbitrary here — but not when a
downstream fatal error (packaging failure) aborts the run. -/
theorem c3_cleanup_amended (env : Env) (input : FilePath)
    (h1 : is_image_ext input = false) (h2 : is_zip_ext input = true)
    (h3 : env.zipValid = true) (h4 : env.pullOk = true) (h5 : env.packOk = true) :
    Event.tempDirRemoved env.tempDir ∈ (main_run env input).2 := by
  unfold main_run pull_docker_image create_output_zip
  rw [process_files_zip env input h1 h2 h3]
  simp [h4, h5]

/-- C3 amended witness: in a world where every single job fails, the
workspace is still removed at the end of the run. -/
theorem c3_cleanup_amended_witness :
    (is_image_ext inputZip = false ∧ is_zip_ext inputZip = true ∧
      envAllFail.zipValid = true ∧ envAllFail.pullOk = true ∧ envAllFail.packOk = true) ∧
    Event.tempDirRemoved envAllFail.tempDir ∈ (main_run envAllFail inputZip).2 :=
  ⟨⟨by decide, by decide, by decide, by decide, by decide⟩,
    c3_cleanup_amended envAllFail inputZip (by decide) (by decide) (by decide)
      (by decide) (by decide)⟩

/-- C4: a successful tool invocation returns the tile directory computed
deterministically from the image's base name —
`<parent>/output/<stem>/<stem>_tiles` — and the invoker never reads the
file system to verify tiles exist: its result is unchanged under any
replacement of the directory-listing oracle. -/
theorem c4_tool_output_path (env : Env) (img : FilePath)
    (h : env.dockerOk img = true) :
    (run_pyhist_docker env img).1 =
      Except.ok (img.dirs ++ ["output", img.stem, img.stem ++ "_tiles"]) ∧
    ∀ fs2 : Dir → List String,
      (run_pyhist_docker { env with files := fs2 } img).1 = (run_pyhist_docker env img).1 := by
  unfold run_pyhist_docker expected_tile_folder
  simp [h]

/-- C4 witness: the invocation on `w/c.tif` succeeds and returns
`w/output/c/c_tiles` even though that directory's listing is empty. -/
theorem c4_tool_output_path_witness :
    (envHappy.dockerOk ⟨["w"], "c", ".tif"⟩ = true ∧
      png_files envHappy (expected_tile_folder ⟨["w"], "c", ".tif"⟩) = []) ∧
    ((run_pyhist_docker envHappy ⟨["w"], "c", ".tif"⟩).1 =
        Except.ok (["w"] ++ ["output", "c", "c" ++ "_tiles"]) ∧
    ∀ fs2 : Dir → List String,
      (run_pyhist_docker { envHappy with files := fs2 } ⟨["w"], "c", ".tif"⟩).1 =
        (run_pyhist_docker envHappy ⟨["w"], "c", ".tif"⟩).1) :=
  ⟨⟨by decide, by decide⟩,
    c4_tool_output_path envHappy ⟨["w"], "c", ".tif"⟩ (by decide)⟩

/-- C5: a corrupted archive input (with the tool pull succeeding) makes the
run fail with the invalid-archive error, and no tool job is ever
dispatched: no `docker run` event appears in the whole run's trace. -/
theorem c5_invalid_archive (env : Env) (input : FilePath)
    (h1 : is_image_ext input = false) (h2 : is_zip_ext input = true)
    (h3 : env.zipValid = false) (h4 : env.pullOk = true) :
    (main_run env input).1 = Except.error Err.invalidZip ∧
    ∀ img, Event.spawnDocker img ∉ (main_run env input).2 := by
  unfold main_run pull_docker_image process_files extract_zip
  simp [h1, h2, h3, h4]

/-- C5 witness: the theorem applied to the fixture world whose input
archive is malformed. -/
theorem c5_invalid_archive_witness :
    (is_image_ext inputZip = false ∧ is_zip_ext inputZip = true ∧
      envBadZip.zipValid = false ∧ envBadZip.pullOk = true) ∧
    ((main_run envBadZip inputZip).1 = Except.error Err.invalidZip ∧
    ∀ img, Event.spawnDocker img ∉ (main_run envBadZip inputZip).2) :=
  ⟨⟨by decide, by decide, by decide, by decide⟩,
    c5_invalid_archive envBadZip inputZip (by decide) (by decide) (by decide) (by decide)⟩

/-- C6: a job whose tool invocation succeeds but whose expected tile
directory holds zero `.png` files is logged with the warning event — never
with the job-failure error event — and, provided no other job shares its
stem and succeeds, its identifier is absent from the result mapping. -/
theorem c6_empty_output_warning (env : Env) (images : List FilePath) (img : FilePath)
    (h1 : img ∈ images) (h2 : env.dockerOk img = true)
    (h3 : png_files env (expected_tile_folder img) = []) :
    Event.warnNoTiles (expected_tile_folder img) ∈ (dispatch_all env ([], []) images).2 ∧
    Event.errJobFailed img ∉ (dispatch_all env ([], []) images).2 ∧
    ((∀ im ∈ images, im.stem = img.stem → job_ok env im = false) →
      img.stem ∉ ((dispatch_all env ([], []) images).1).map Prod.fst) := by
  refine ⟨?_, ?_, ?_⟩
  · rw [dispatch_all_snd]
    exact List.mem_append_right _
      (List.mem_flatMap.mpr ⟨img, h1, warnNoTiles_mem_job_events env img h2 h3⟩)
  · rw [dispatch_all_snd]
    intro hmem
    rcases List.mem_append.mp hmem with h0 | h0
    · cases h0
    · obtain ⟨im, _, he⟩ := List.mem_flatMap.mp h0
      obtain ⟨rfl, hfalse⟩ := errJobFailed_job_events env im img he
      rw [h2] at hfalse
      cases hfalse
  · intro hall hmem
    rw [dispatch_all_fst] at hmem
    rcases (mem_keys_foldl env images img.stem []).mp hmem with h0 | ⟨im, him, hst, hok⟩
    · cases h0
    · rw [hall im him hst] at hok
      cases hok

/-- C6 witness: in the fixture world, the job for `w/c.tif` succeeds with
zero tiles; its warning is logged, no error is logged for it, and `c` is
not a key of the dispatcher's result map. -/
theorem c6_empty_output_warning_witness :
    ((⟨["w"], "c", ".tif"⟩ : FilePath) ∈ [(⟨["w"], "c", ".tif"⟩ : FilePath)] ∧
      envHappy.dockerOk ⟨["w"], "c", ".tif"⟩ = true ∧
      png_files envHappy (expected_tile_folder ⟨["w"], "c", ".tif"⟩) = []) ∧
    (Event.warnNoTiles (expected_tile_folder ⟨["w"], "c", ".tif"⟩) ∈
        (dispatch_all envHappy ([], []) [⟨["w"], "c", ".tif"⟩]).2 ∧
    Event.errJobFailed ⟨["w"], "c", ".tif"⟩ ∉
        (dispatch_all envHappy ([], []) [⟨["w"], "c", ".tif"⟩]).2 ∧
    ((∀ im ∈ [(⟨["w"], "c", ".tif"⟩ : FilePath)],
          im.stem = FilePath.stem ⟨["w"], "c", ".tif"⟩ → job_ok envHappy im = false) →
      FilePath.stem ⟨["w"], "c", ".tif"⟩ ∉
        ((dispatch_all envHappy ([], []) [⟨["w"], "c", ".tif"⟩]).1).map Prod.fst)) :=
  ⟨⟨by decide, by decide, by decide⟩,
    c6_empty_output_warning envHappy [⟨["w"], "c", ".tif"⟩] ⟨["w"], "c", ".tif"⟩
      (by decide) (by decide) (by decide)⟩

/-- C7: the worker pool never runs more than `max_workers = 25` external
invocations simultaneously — in every state reachable from submitting `k`
jobs to the pool, the number of running jobs is at most `max_workers`. -/
theorem c7_worker_pool_bound (k : Nat) (s : ExecState) (h : ExecReach k s) :
    s.running ≤ max_workers := by
  induction h with
  | init => exact Nat.zero_le _
  | step _ hstep ih =>
    cases hstep with
    | start hp hr => exact hr
    | finish hr => exact le_trans (Nat.sub_le _ _) ih

/-- C7 witness: the state with one running job reached by starting one of
three submitted jobs is within the bound. -/
theorem c7_worker_pool_bound_witness :
    ExecReach 3 ⟨2, 1, 0⟩ ∧ (⟨2, 1, 0⟩ : ExecState).running ≤ max_workers :=
  ⟨ExecReach.step ExecReach.init (ExecStep.start ⟨3, 0, 0⟩ (by decide) (by decide)),
    c7_worker_pool_bound 3 ⟨2, 1, 0⟩
      (ExecReach.step ExecReach.init (ExecStep.start ⟨3, 0, 0⟩ (by decide) (by decide)))⟩

/-- C8: idempotence of membership.  Because `create_output_zip` opens the
output archive in truncating mode and the run is a deterministic function
of the world, running the orchestrator twice over the same input and output
path leaves the output archive with exactly the membership a single run
produces, whatever archive was there before. -/
theorem c8_idempotent_membership (env : Env) (input out : FilePath) (s : ZipStore) :
    run_with_store env input out (run_with_store env input out s) out =
      run_with_store env input out s out := by
  cases h : (main_run env input).1 <;> simp [run_with_store, h]

/-- C9: extension recognition is case-insensitive — the image and archive
classification tests used on the input path and on archive members depend
only on the lower-cased suffix, so two paths whose suffixes agree after
lowering classify identically. -/
theorem c9_ext_case_insensitive (p q : FilePath)
    (h : strLower p.ext = strLower q.ext) :
    is_image_ext p = is_image_ext q ∧ is_zip_ext p = is_zip_ext q := by
  constructor <;> simp [is_image_ext, is_zip_ext, h]

/-- C9 witness: `.SVS` and `.svs` lower to the same suffix and are
classified identically (both as images, not archives). -/
theorem c9_ext_case_insensitive_witness :
    (strLower (FilePath.ext ⟨[], "a", ".SVS"⟩) = strLower (FilePath.ext ⟨[], "a", ".svs"⟩)) ∧
    (is_image_ext ⟨[], "a", ".SVS"⟩ = is_image_ext ⟨[], "a", ".svs"⟩ ∧
      is_zip_ext ⟨[], "a", ".SVS"⟩ = is_zip_ext ⟨[], "a", ".svs"⟩) ∧
    is_image_ext ⟨[], "a", ".SVS"⟩ = true :=
  ⟨by decide, c9_ext_case_insensitive ⟨[], "a", ".SVS"⟩ ⟨[], "a", ".svs"⟩ (by decide),
    by decide⟩

/-- C10: no atomicity on the extraction error path — on a malformed
archive, `extract_zip` raises the invalid-archive error after having
created the temporary directory, and never removes it: the directory leaks. -/
theorem c10_extract_leak (env : Env) (h : env.zipValid = false) :
    (extract_zip env).1 = Except.error Err.invalidZip ∧
    Event.tempDirCreated env.tempDir ∈ (extract_zip env).2 ∧
    Event.tempDirRemoved env.tempDir ∉ (extract_zip env).2 := by
  unfold extract_zip
  simp [h]

/-- C10 witness: the theorem applied to the fixture world with the
malformed archive. -/
theorem c10_extract_leak_witness :
    envBadZip.zipValid = false ∧
    ((extract_zip envBadZip).1 = Except.error Err.invalidZip ∧
    Event.tempDirCreated envBadZip.tempDir ∈ (extract_zip envBadZip).2 ∧
    Event.tempDirRemoved envBadZip.tempDir ∉ (extract_zip envBadZip).2) :=
  ⟨by decide, c10_extract_leak envBadZip (by decide)⟩

end TilingPyhist
